import Mathlib

/-!
Shallow embedding of `src/warnet/docker_compose.py` (the topology-to-deployment
compiler of warnet): the configuration overlay engine (`write_bitcoin_configs`),
the version resolver and service assembly loop inside `generate_docker_compose`,
architecture detection (`get_architecture`), the final serialization step, and —
modelled from the spec, since module `addr` is not among the sources — the
subnet address allocator `generate_ip_addr`.

Python strings are embedded as Lean `String`; the Python string operations used
by the source (`str.split` with a one-character separator, `str.strip`,
substring membership via `in` for one-character needles) are given explicit
structurally recursive definitions over `String.data` so that all definitions
evaluate inside the kernel.
-/

namespace Warnet

/-- Split a character list at every occurrence of the separator `c`.
Mirrors Python `str.split(sep)` for a one-character `sep`:
`"".split(",") == [""]` and separators at the ends produce empty pieces. -/
def chSplit (c : Char) : List Char → List (List Char)
  | [] => [[]]
  | x :: xs =>
    match chSplit c xs, decide (x = c) with
    | r, true => [] :: r
    | [], false => [[x]]
    | p :: ps, false => (x :: p) :: ps

/-- Python `s.split(sep)` for a one-character separator `sep`. -/
def pySplit (sep : Char) (s : String) : List String :=
  (chSplit sep s.data).map String.mk

/-- Drop leading whitespace characters from a character list. -/
def dropLeadWs : List Char → List Char
  | [] => []
  | x :: xs => if x.isWhitespace then dropLeadWs xs else x :: xs

/-- Python `s.strip()`: remove whitespace from both ends. -/
def pyStrip (s : String) : String :=
  String.mk ((dropLeadWs (dropLeadWs s.data.reverse).reverse))

/-- Python `c in s` for a one-character needle `c`. -/
def pyContains (s : String) (c : Char) : Bool :=
  s.data.any (fun x => x = c)

/-! ### The configuration section dictionary

`parse_bitcoin_conf` (module `conf_parser`, not among the sources) returns a
section-keyed mapping of configuration keys to values per the spec's data
model; the overlay only ever touches the `regtest` (`NETWORK`) section, which
we embed as an insertion-ordered key/value dictionary, matching Python `dict`
semantics: assignment to an existing key updates it in place, assignment to a
fresh key appends it at the end. -/

/-- The `NETWORK` (`regtest`) section of a bitcoin configuration: an
insertion-ordered dictionary, as a list of key/value pairs. -/
abbrev ConfSection := List (String × String)

/-- Python `d[k] = v` on an insertion-ordered dict: update in place if the key
is present, append otherwise. -/
def dictSet : ConfSection → String → String → ConfSection
  | [], k, v => [(k, v)]
  | (k', v') :: rest, k, v =>
    if k' = k then (k, v) :: rest else (k', v') :: dictSet rest k v

/-- Python `d.get(k)` / `d[k]` lookup. -/
def dictGet : ConfSection → String → Option String
  | [], _ => none
  | (k', v) :: rest, k => if k' = k then some v else dictGet rest k

/-! ### Configuration overlay engine (`write_bitcoin_configs`, lines 41-64) -/

/-- One (already stripped, non-empty) override token, lines 55-58:
`if "=" in option: key, value = option.split("=") else: key, value = option, "1"`.
A token without `=` becomes `(token, "1")`; a token with exactly one `=` splits
into `(key, value)`; a token with two or more `=` makes the tuple unpacking
`key, value = option.split("=")` raise `ValueError`, embedded as `none`. -/
def parseToken (tok : String) : Option (String × String) :=
  match pySplit '=' tok with
  | [_] => some (tok, "1")
  | [k, v] => some (k, v)
  | _ => none

/-- Lines 52-59: iterate the comma-separated tokens in order, strip each,
skip empty tokens, and write each parsed key/value into the section dict
(`node_conf[NETWORK][key] = value`). `none` embeds an uncaught exception. -/
def applyTokens : ConfSection → List String → Option ConfSection
  | sec, [] => some sec
  | sec, tok :: rest =>
    let t := pyStrip tok
    if t = "" then applyTokens sec rest
    else
      match parseToken t with
      | none => none
      | some (k, v) => applyTokens (dictSet sec k v) rest

/-- The whole per-node overlay, lines 51-59: split the node's
`bitcoin_config` attribute on commas and apply every token to the section. -/
def applyOverrides (sec : ConfSection) (overrideStr : String) : Option ConfSection :=
  applyTokens sec (pySplit ',' overrideStr)

/-- The token pipeline exactly as the overlay's parsing rule reads: split the
override string on commas, strip each token, ignore empty tokens, parse each
remaining token with `parseToken`; `none` when some token makes `parseToken`
raise. Used to state what `applyOverrides` computes. -/
def tokenize : List String → Option (List (String × String))
  | [] => some []
  | tok :: rest =>
    let t := pyStrip tok
    if t = "" then tokenize rest
    else
      match parseToken t, tokenize rest with
      | some kv, some kvs => some (kv :: kvs)
      | _, _ => none

/-- The parsed `(key, value)` tokens of an override string, in left-to-right
order. -/
def parsedTokens (s : String) : Option (List (String × String)) :=
  tokenize (pySplit ',' s)

/-- `orD a b` is `a` unless `a` is `none`, in which case it is `b`. -/
def orD (a b : Option String) : Option String :=
  match a with
  | some v => some v
  | none => b

/-- The value assigned to key `k` by the last token (left-to-right) carrying
that key, if any: last write wins. -/
def lastValue : List (String × String) → String → Option String
  | [], _ => none
  | p :: rest, k => orD (lastValue rest k) (if p.1 = k then some p.2 else none)

/-- A node's attributes as read from the topology graph:
`version` (required), `bitcoin_config` (optional, `node_data.get("bitcoin_config", "")`),
`conf` (optional, `node.get("conf", "bitcoin.conf")`). -/
structure NodeData where
  version : String
  bitcoin_config : Option String := none
  conf : Option String := none
deriving DecidableEq, Repr

/-- Line 63: the per-node configuration artifact is written to
`config/bitcoin.conf.{node_id}`. -/
def artifactPath (node_id : Nat) : String :=
  "config/bitcoin.conf." ++ Nat.repr node_id

/-- Lines 41-64, `write_bitcoin_configs`, with Python's aliasing semantics made
explicit: `node_conf = default_bitcoin_conf.copy()` (line 49) is a *shallow*
copy, so `node_conf[NETWORK]` is the very same dict object as
`default_bitcoin_conf[NETWORK]`, and the writes `node_conf[NETWORK][key] = value`
(line 59) mutate that one shared section across loop iterations. The shared
section is therefore threaded through the nodes; each node's file
(`config/bitcoin.conf.{node_id}`, line 63) serializes the section as it stands
after that node's own writes. Returns the written `(path, section)` pairs, or
`none` if an override token raises. -/
def write_bitcoin_configs : ConfSection → List (Nat × NodeData) →
    Option (List (String × ConfSection))
  | _, [] => some []
  | sharedSec, (node_id, node_data) :: rest =>
    match applyOverrides sharedSec ((node_data.bitcoin_config).getD "") with
    | none => none
    | some sec =>
      match write_bitcoin_configs sec rest with
      | none => none
      | some tail => some ((artifactPath node_id, sec) :: tail)

/-- The overlay as the spec describes it, for comparison: each node's override
string applied to an *independent* copy of the base template's section, so no
node's result can depend on another node's overrides. -/
def writeConfigsIndependent (base : ConfSection) (nodes : List (Nat × NodeData)) :
    Option (List (String × ConfSection)) :=
  nodes.mapM (fun p =>
    (applyOverrides base ((p.2.bitcoin_config).getD "")).map
      (fun sec => (artifactPath p.1, sec)))

/-! ### Architecture detection (`get_architecture`, lines 20-38) -/

/-- Lines 20-38. The argument is the outcome of `subprocess.run(['uname', '-m'])`:
`none` when the call raises. The body strips the decoded stdout, normalizes
`arm64` to `aarch64` and returns it; any exception is caught, logged, and
`None` is returned. The function never propagates an exception. -/
def get_architecture (unameOutput : Option String) : Option String :=
  match unameOutput with
  | none => none
  | some out =>
    let arch := pyStrip out
    some (if arch = "arm64" then "aarch64" else arch)

/-! ### Version resolver (lines 139-160) -/

/-- How Python renders the architecture value into the f-string URL:
`f"{None}"` is the text `None`. -/
def pyArchStr : Option String → String
  | none => "None"
  | some s => s

/-- Line 158: the release download URL template. -/
def releaseUrl (arch : Option String) (version : String) : String :=
  "https://bitcoincore.org/bin/bitcoin-core-" ++ version ++ "/bitcoin-" ++
    version ++ "-" ++ pyArchStr arch ++ "-linux-gnu.tar.gz"

/-- A resolved build instruction: build from a source branch
(lines 142-149) or fetch a released binary (lines 152-160). -/
inductive BuildInstruction where
  | fromSource (repo branch : String)
  | fromRelease (arch : Option String) (version : String) (url : String)
deriving DecidableEq, Repr

/-- Lines 139-160. The guard on line 139 is `if "/" and "#" in version:`; in
Python the non-empty literal `"/"` is truthy, so the conjunction evaluates to
`"#" in version` alone. When taken, line 141 `repo, branch = version.split("#")`
unpacks a pair, raising `ValueError` (embedded as `none`) unless the version
holds exactly one `#`. Otherwise a release instruction is built with the
detected architecture and templated URL. -/
def resolveBuild (arch : Option String) (version : String) : Option BuildInstruction :=
  if pyContains version '#' then
    match pySplit '#' version with
    | [repo, branch] => some (.fromSource repo branch)
    | _ => none
  else
    some (.fromRelease arch version (releaseUrl arch version))

/-! ### Service assembly (lines 129-188) -/

/-- Line 131-132: the user-supplied configuration file path referenced by the
node service, `./config/{node.get("conf", "bitcoin.conf")}`. -/
def confFilePath (node : NodeData) : String :=
  "./config/" ++ (node.conf).getD "bitcoin.conf"

/-- The environment block of the exporter sidecar, lines 180-185. -/
structure ExporterEnvironment where
  BITCOIN_RPC_HOST : String
  BITCOIN_RPC_PORT : Nat
  BITCOIN_RPC_USER : String
  BITCOIN_RPC_PASSWORD : String
deriving DecidableEq, Repr

/-- The bitcoin-node service definition, lines 167-173. -/
structure NodeService where
  name : String
  container_name : String
  build : BuildInstruction
  volumes : List String
  ipv4_address : Nat
deriving DecidableEq, Repr

/-- The prom-exporter-node service definition, lines 176-188. -/
structure ExporterService where
  name : String
  container_name : String
  image : String
  environment : ExporterEnvironment
  ports : List String
deriving DecidableEq, Repr

/-- Line 186: the published (host-side) exporter port for the node at position
`i` of the iteration order, `8335 + i`. -/
def exporterPort (i : Nat) : Nat :=
  8335 + i

/-- Lines 176-188: the exporter sidecar for the node at position `i` of the
iteration order. Its environment is fixed, and its published port is
`8335 + i`, mapped to container port `9332`. -/
def exporterServiceFor (i : Nat) : ExporterService :=
  { name := "prom-exporter-node-" ++ Nat.repr i
    container_name := "exporter-node-" ++ Nat.repr i
    image := "jvstein/bitcoin-prometheus-exporter"
    environment :=
      { BITCOIN_RPC_HOST := "bitcoin-node-" ++ Nat.repr i
        BITCOIN_RPC_PORT := 18443
        BITCOIN_RPC_USER := "btc"
        BITCOIN_RPC_PASSWORD := "passwd" }
    ports := [Nat.repr (exporterPort i) ++ ":9332"] }

/-- Outcome of one iteration of the per-node loop. -/
inductive StepResult where
  | exited (code : Nat) (message : String)
  | raised
  | ok (node : NodeService) (exporter : ExporterService)
deriving DecidableEq, Repr

/-- Lines 129-188, the body of `for i, node in enumerate(nodes)`:
check the user-supplied configuration file exists (exit 1 naming the path if
not, lines 134-137), resolve the build instruction (lines 139-160), and
assemble the node service (mounting the user config file at
`/root/.bitcoin/bitcoin.conf` and pinning the allocated address) together with
its exporter sidecar. `onDisk` embeds `os.path.isfile`; `ip` is the address
returned by `generate_ip_addr` for this iteration. -/
def nodeStep (arch : Option String) (onDisk : String → Bool) (ip : Nat)
    (i : Nat) (node : NodeData) : StepResult :=
  let path := confFilePath node
  if !onDisk path then
    .exited 1 ("Error: Configuration file " ++ path ++ " does not exist.")
  else
    match resolveBuild arch node.version with
    | none => .raised
    | some build =>
      .ok
        { name := "bitcoin-node-" ++ Nat.repr i
          container_name := "warnet_" ++ Nat.repr i
          build := build
          volumes := [path ++ ":/root/.bitcoin/bitcoin.conf"]
          ipv4_address := ip }
        (exporterServiceFor i)

/-! ### Subnet address allocator -/

/-- A subnet in CIDR form: numeric network base address and number of host
bits. -/
structure Subnet where
  base : Nat
  hostBits : Nat
deriving DecidableEq, Repr

/-- Membership of a numeric address in the subnet's range. -/
def Subnet.member (s : Subnet) (addr : Nat) : Prop :=
  s.base ≤ addr ∧ addr < s.base + 2 ^ s.hostBits

instance (s : Subnet) (a : Nat) : Decidable (s.member a) := by
  unfold Subnet.member; infer_instance

/-- Modelled from the spec: `generate_ip_addr` lives in module `addr`, which is
not among the sources. Per spec §4.1 it is a pure function of the subnet and a
monotonically increasing call count that returns a fresh usable address inside
the subnet — excluding the network address, a gateway-reserved address and the
broadcast address — and fails (`AddressSpaceExhausted`, embedded as `none`)
once the usable space is exhausted. The `count`-th usable address is
`base + 2 + count`. -/
def generate_ip_addr (subnet : Subnet) (count : Nat) : Option Nat :=
  if count + 2 < 2 ^ subnet.hostBits - 1 then some (subnet.base + 2 + count)
  else none

/-- The allocator calls made by the per-node loop (line 163), one per node in
iteration order, with the internal call counter starting at `count`. -/
def allocFrom (subnet : Subnet) (count : Nat) : Nat → Option (List Nat)
  | 0 => some []
  | n + 1 =>
    match generate_ip_addr subnet count with
    | none => none
    | some a =>
      match allocFrom subnet (count + 1) n with
      | none => none
      | some rest => some (a :: rest)

/-- The addresses a compilation run assigns to the nodes of the graph, in
iteration order: one allocator call per node, counter starting at 0. -/
def nodeAddresses (subnet : Subnet) (nodes : List (Nat × NodeData)) : Option (List Nat) :=
  allocFrom subnet 0 nodes.length

/-! ### Serialization of the deployment specification (lines 206-210) -/

/-- How a serialization attempt can go: `open(DOCKER_COMPOSE_FILE, "w")` itself
fails; or the `open` succeeds (creating/truncating the file) and `yaml.dump`
fails midway; or everything succeeds. -/
inductive WriteAttempt where
  | openFails
  | dumpFails
  | succeeds
deriving DecidableEq, Repr

/-- Observable outcome of the serialization step: whether an exception escapes
`generate_docker_compose`, whether a file exists at `docker-compose.yml`
afterwards, and whether that file holds the complete document. -/
structure SerializeResult where
  raised : Bool
  fileExists : Bool
  fileComplete : Bool
deriving DecidableEq, Repr

/-- Lines 206-210: `with open(DOCKER_COMPOSE_FILE, "w")` creates or truncates
the output file, then `yaml.dump` writes into it; any exception is caught by
the bare `except`, logged, and swallowed, so the function returns normally in
every case. If `open` itself fails no file is created; if `yaml.dump` fails
after the file was opened for writing, the truncated/partially written file
remains in place. -/
def writeComposeFile : WriteAttempt → SerializeResult
  | .openFails => { raised := false, fileExists := false, fileComplete := false }
  | .dumpFails => { raised := false, fileExists := true, fileComplete := false }
  | .succeeds => { raised := false, fileExists := true, fileComplete := true }

/-! ## Helper lemmas -/

theorem dictGet_dictSet (d : ConfSection) (k v k' : String) :
    dictGet (dictSet d k v) k' = if k = k' then some v else dictGet d k' := by
  induction d with
  | nil => by_cases h : k = k' <;> simp [dictSet, dictGet, h]
  | cons p rest ih =>
    obtain ⟨k₀, v₀⟩ := p
    by_cases h0 : k₀ = k
    · subst h0
      by_cases h1 : k₀ = k' <;> simp [dictSet, dictGet, h1]
    · by_cases h1 : k₀ = k'
      · subst h1
        simp [dictSet, dictGet, h0, ih]
        rw [if_neg (fun hh => h0 hh.symm)]
      · simp [dictSet, dictGet, h0, h1, ih]

theorem orD_assoc (a b c : Option String) : orD (orD a b) c = orD a (orD b c) := by
  cases a <;> rfl

theorem dictGet_applyAll (kvs : List (String × String)) (d : ConfSection) (k : String) :
    dictGet (kvs.foldl (fun d' p => dictSet d' p.1 p.2) d) k =
      orD (lastValue kvs k) (dictGet d k) := by
  induction kvs generalizing d with
  | nil => rfl
  | cons p rest ih =>
    rw [List.foldl_cons, ih]
    have h2 : dictGet (dictSet d p.1 p.2) k =
        orD (if p.1 = k then some p.2 else none) (dictGet d k) := by
      rw [dictGet_dictSet]
      by_cases h : p.1 = k <;> simp [h, orD]
    rw [h2, ← orD_assoc]
    rfl

theorem applyTokens_eq (toks : List String) (sec : ConfSection) :
    applyTokens sec toks =
      (tokenize toks).map (fun kvs => kvs.foldl (fun d p => dictSet d p.1 p.2) sec) := by
  induction toks generalizing sec with
  | nil => rfl
  | cons tok rest ih =>
    unfold applyTokens tokenize
    by_cases h : pyStrip tok = ""
    · simp only [h, if_pos rfl, if_true, ite_true]
      exact ih sec
    · simp only [h, ite_false, if_neg h]
      cases hp : parseToken (pyStrip tok) with
      | none => cases ht : tokenize rest <;> simp
      | some kv =>
        obtain ⟨k, v⟩ := kv
        dsimp only
        rw [ih (dictSet sec k v)]
        cases ht : tokenize rest <;> simp [List.foldl_cons]

theorem allocFrom_eq (subnet : Subnet) (n : Nat) :
    ∀ count, count + n + 1 < 2 ^ subnet.hostBits - 1 →
      allocFrom subnet count n =
        some ((List.range n).map (fun j => subnet.base + 2 + count + j)) := by
  induction n with
  | zero => intro count _; rfl
  | succ m ih =>
    intro count h
    have hgen : generate_ip_addr subnet count = some (subnet.base + 2 + count) := by
      unfold generate_ip_addr
      rw [if_pos (by omega)]
    unfold allocFrom
    rw [hgen, ih (count + 1) (by omega)]
    dsimp only
    congr 1
    rw [List.range_succ_eq_map, List.map_cons, List.map_map]
    refine List.cons_eq_cons.mpr ⟨by simp, ?_⟩
    apply List.map_congr_left
    intro a _
    simp only [Function.comp_apply]
    omega

/-! ## Claim theorems -/

/-- C1: the claim says a version string is classified as a source build iff it
contains both `/` and `#`. The guard on line 139 is `"/" and "#" in version`,
which in Python evaluates to `"#" in version` alone, so the version `"21.0#x"`
— which contains `#` but no path separator — is classified as a source build
(repository `"21.0"`, branch `"x"`) instead of resolving to a release
instruction. This contradicts the claim at that input. -/
theorem c1_hash_without_separator_builds_from_source :
    pyContains "21.0#x" '/' = false ∧
    pyContains "21.0#x" '#' = true ∧
    resolveBuild (some "aarch64") "21.0#x" =
      some (BuildInstruction.fromSource "21.0" "x") := by
  decide

/-- C2: the claim says every node's service definition mounts the per-node
configuration artifact written by the overlay engine for that node identifier.
In the code, `write_bitcoin_configs` writes node 0's resolved configuration to
`config/bitcoin.conf.0`, but the service assembled for that node mounts
`./config/bitcoin.conf` — the raw user/base configuration file from the `conf`
attribute default — and no volume of the node service references the overlay
artifact, so the node's overrides (`rpcuser=bar` here) never reach the
deployed node. -/
theorem c2_service_mounts_user_conf_not_overlay_artifact :
    write_bitcoin_configs [("rpcuser", "foo")]
        [(0, { version := "25.0", bitcoin_config := some "rpcuser=bar" })] =
      some [(artifactPath 0, [("rpcuser", "bar")])] ∧
    artifactPath 0 = "config/bitcoin.conf.0" ∧
    ∃ ns es, nodeStep (some "x86_64") (fun _ => true) 5 0
        { version := "25.0", bitcoin_config := some "rpcuser=bar" } =
        StepResult.ok ns es ∧
      ns.volumes = ["./config/bitcoin.conf:/root/.bitcoin/bitcoin.conf"] ∧
      ∀ v ∈ ns.volumes, v ≠ "./" ++ artifactPath 0 ++ ":/root/.bitcoin/bitcoin.conf" := by
  refine ⟨by decide, by decide, ?_⟩
  refine ⟨_, _, rfl, by decide, by decide⟩

/-- C3: the claim says the base template is never mutated and each node's
overlay is applied to an independent copy, so one node's resolved
configuration is unaffected by other nodes' override strings. Because
`default_bitcoin_conf.copy()` (line 49) is a shallow copy, the `regtest`
section dict is shared, and node 0's override `rpcuser=bar` leaks into node
1's written configuration even though node 1 has no overrides; applying each
overlay to an independent copy (`writeConfigsIndependent`) would instead leave
node 1 with the base value `rpcuser=foo`. -/
theorem c3_shallow_copy_leaks_overrides :
    write_bitcoin_configs [("rpcuser", "foo")]
        [(0, { version := "25.0", bitcoin_config := some "rpcuser=bar" }),
         (1, { version := "25.0" })] =
      some [(artifactPath 0, [("rpcuser", "bar")]),
            (artifactPath 1, [("rpcuser", "bar")])] ∧
    writeConfigsIndependent [("rpcuser", "foo")]
        [(0, { version := "25.0", bitcoin_config := some "rpcuser=bar" }),
         (1, { version := "25.0" })] =
      some [(artifactPath 0, [("rpcuser", "bar")]),
            (artifactPath 1, [("rpcuser", "foo")])] := by
  decide

/-- C4 counterexample: the claim says a token containing `=` is split into
`(key, value)` on the first `=`. The token `a=b=c` contains two `=`, so
`key, value = option.split("=")` (line 56) raises `ValueError` (embedded as
`none`) instead of yielding the section with `a ↦ b=c`. -/
theorem c4_token_with_two_eq_raises :
    applyOverrides [("a", "x")] "a=b=c" = none ∧
    applyOverrides [("a", "x")] "a=b=c" ≠ some (dictSet [("a", "x")] "a" "b=c") := by
  decide

/-- C4 amended: whenever the overlay succeeds, the override string was parsed
by splitting on commas, stripping each token, ignoring empty tokens, turning a
token without `=` into `(token, "1")` and a token with exactly one `=` into
`(key, value)` (two or more `=` abort the run); the resulting section is the
left-to-right fold of those writes, so for every key the override's last
write wins and keys absent from the override retain the base section's
value. -/
theorem c4_overlay_parse_and_precedence (sec : ConfSection) (s : String)
    (sec' : ConfSection) (h : applyOverrides sec s = some sec') :
    ∃ kvs, parsedTokens s = some kvs ∧
      sec' = kvs.foldl (fun d p => dictSet d p.1 p.2) sec ∧
      ∀ k, dictGet sec' k = orD (lastValue kvs k) (dictGet sec k) := by
  rw [applyOverrides, applyTokens_eq] at h
  cases ht : tokenize (pySplit ',' s) with
  | none => rw [ht] at h; exact absurd h (by simp)
  | some kvs =>
    rw [ht] at h
    simp only [Option.map_some', Option.some.injEq] at h
    refine ⟨kvs, ht, h.symm, fun k => ?_⟩
    rw [← h, dictGet_applyAll]

/-- C4 witness: the spec's own example, `rpcuser=foo` in the base section with
override string `"rpcuser=bar, debug"`. -/
theorem c4_overlay_witness :
    applyOverrides [("rpcuser", "foo")] "rpcuser=bar, debug" =
      some [("rpcuser", "bar"), ("debug", "1")] ∧
    ∃ kvs, parsedTokens "rpcuser=bar, debug" = some kvs ∧
      [("rpcuser", "bar"), ("debug", "1")] =
        kvs.foldl (fun d p => dictSet d p.1 p.2) [("rpcuser", "foo")] ∧
      ∀ k, dictGet [("rpcuser", "bar"), ("debug", "1")] k =
        orD (lastValue kvs k) (dictGet [("rpcuser", "foo")] k) :=
  ⟨by decide,
   c4_overlay_parse_and_precedence [("rpcuser", "foo")] "rpcuser=bar, debug"
     [("rpcuser", "bar"), ("debug", "1")] (by decide)⟩

/-- C5 counterexample: the claim says a failing serialization is fatal and
leaves no artifact at the output location. When `yaml.dump` fails after
`open(DOCKER_COMPOSE_FILE, "w")` has already created/truncated the file, the
bare `except` (line 209) swallows the exception — the compilation returns
normally — and the half-written file remains. -/
theorem c5_dump_failure_not_fatal_leaves_artifact :
    (writeComposeFile WriteAttempt.dumpFails).raised = false ∧
    (writeComposeFile WriteAttempt.dumpFails).fileExists = true := by
  decide

/-- C5 amended: a failure while serializing the deployment specification is
caught, logged and swallowed, so compilation never aborts on it; and when the
failure strikes during dumping (after the output file was opened for writing)
a half-written artifact remains at the canonical location. -/
theorem c5_serialization_failure_swallowed :
    (∀ a, (writeComposeFile a).raised = false) ∧
    (writeComposeFile WriteAttempt.dumpFails).fileExists = true ∧
    (writeComposeFile WriteAttempt.dumpFails).fileComplete = false := by
  exact ⟨fun a => by cases a <;> rfl, rfl, rfl⟩

/-- C6: one compilation run requests one address per node, in graph iteration
order, from the allocator (modelled from the spec, see `generate_ip_addr`).
Provided the subnet's usable space suffices, exactly `N` addresses are
allocated, all pairwise distinct, all inside the subnet, and the `i`-th node
in iteration order receives the allocator's `i`-th address. -/
theorem c6_addresses_unique_in_iteration_order (subnet : Subnet)
    (nodes : List (Nat × NodeData))
    (h : nodes.length + 1 < 2 ^ subnet.hostBits - 1) :
    ∃ addrs, nodeAddresses subnet nodes = some addrs ∧
      addrs.length = nodes.length ∧
      addrs.Nodup ∧
      (∀ a ∈ addrs, subnet.member a) ∧
      ∀ i, (hi : i < addrs.length) → addrs.get ⟨i, hi⟩ = subnet.base + 2 + i := by
  refine ⟨(List.range nodes.length).map (fun j => subnet.base + 2 + j),
    ?_, by simp, ?_, ?_, ?_⟩
  · unfold nodeAddresses
    rw [allocFrom_eq subnet nodes.length 0 (by omega)]
  · exact List.Nodup.map (fun a b hab => by omega) (List.nodup_range _)
  · intro a ha
    simp only [List.mem_map, List.mem_range] at ha
    obtain ⟨j, hj, rfl⟩ := ha
    exact ⟨by omega, by omega⟩
  · intro i hi
    simp only [List.get_eq_getElem, List.getElem_map, List.getElem_range]

/-- C6 witness: a `/24`-sized subnet and a three-node graph. -/
theorem c6_addresses_witness :
    (([(0, { version := "25.0" }), (1, { version := "25.0" }),
       (2, { version := "25.0" })] : List (Nat × NodeData)).length + 1 <
      2 ^ (Subnet.mk 256 8).hostBits - 1) ∧
    ∃ addrs,
      nodeAddresses (Subnet.mk 256 8)
          [(0, { version := "25.0" }), (1, { version := "25.0" }),
           (2, { version := "25.0" })] = some addrs ∧
      addrs.length =
        ([(0, { version := "25.0" }), (1, { version := "25.0" }),
          (2, { version := "25.0" })] : List (Nat × NodeData)).length ∧
      addrs.Nodup ∧
      (∀ a ∈ addrs, (Subnet.mk 256 8).member a) ∧
      ∀ i, (hi : i < addrs.length) → addrs.get ⟨i, hi⟩ = (Subnet.mk 256 8).base + 2 + i :=
  ⟨by decide,
   c6_addresses_unique_in_iteration_order (Subnet.mk 256 8)
     [(0, { version := "25.0" }), (1, { version := "25.0" }),
      (2, { version := "25.0" })] (by decide)⟩

/-- C7: the exporter paired with the node at position `i` of the iteration
order publishes host port `8335 + i` (mapped to container port `9332`), a
function of the position only — `exporterServiceFor` takes nothing but the
index — so any two distinct positions get distinct published ports. -/
theorem c7_exporter_port_base_plus_index (i j : Nat) :
    (exporterServiceFor i).ports = [Nat.repr (exporterPort i) ++ ":9332"] ∧
    exporterPort i = 8335 + i ∧
    (i ≠ j → exporterPort i ≠ exporterPort j) := by
  refine ⟨rfl, rfl, fun hne heq => hne ?_⟩
  unfold exporterPort at heq
  omega

/-- C7 witness: positions 0 and 1. -/
theorem c7_exporter_port_witness :
    (exporterServiceFor 0).ports = [Nat.repr (exporterPort 0) ++ ":9332"] ∧
    exporterPort 0 = 8335 + 0 ∧
    exporterPort 0 ≠ exporterPort 1 :=
  ⟨(c7_exporter_port_base_plus_index 0 1).1,
   (c7_exporter_port_base_plus_index 0 1).2.1,
   (c7_exporter_port_base_plus_index 0 1).2.2 (by decide)⟩

/-- C8: when the platform query raises, `get_architecture` catches the
exception and returns `None` instead of propagating it, and the compiler
carries that value on: a release version still resolves to a release build
instruction whose architecture argument is the null value, rendered as the
text `None` inside the download URL, rather than aborting compilation. -/
theorem c8_architecture_failure_swallowed (v : String)
    (hv : pyContains v '#' = false) :
    get_architecture none = none ∧
    pyArchStr (get_architecture none) = "None" ∧
    resolveBuild (get_architecture none) v =
      some (BuildInstruction.fromRelease none v (releaseUrl none v)) := by
  refine ⟨rfl, rfl, ?_⟩
  simp [resolveBuild, get_architecture, hv]

/-- C8 witness: release version `25.0` with the platform query failing. -/
theorem c8_architecture_witness :
    pyContains "25.0" '#' = false ∧
    (get_architecture none = none ∧
     pyArchStr (get_architecture none) = "None" ∧
     resolveBuild (get_architecture none) "25.0" =
       some (BuildInstruction.fromRelease none "25.0" (releaseUrl none "25.0"))) :=
  ⟨by decide, c8_architecture_failure_swallowed "25.0" (by decide)⟩

/-- C9: when the user-supplied configuration file referenced by a node is
missing from disk, the per-node loop exits with status 1 — a non-zero exit —
and the error message printed contains the missing path. -/
theorem c9_missing_conf_exits_nonzero (arch : Option String)
    (onDisk : String → Bool) (ip i : Nat) (node : NodeData)
    (h : onDisk (confFilePath node) = false) :
    nodeStep arch onDisk ip i node =
      StepResult.exited 1
        ("Error: Configuration file " ++ confFilePath node ++ " does not exist.") ∧
    (1 : Nat) ≠ 0 ∧
    ∃ s₁ s₂, "Error: Configuration file " ++ confFilePath node ++ " does not exist." =
      s₁ ++ confFilePath node ++ s₂ := by
  refine ⟨?_, by decide, "Error: Configuration file ", " does not exist.", rfl⟩
  simp [nodeStep, h]

/-- C9 witness: a node referencing `missing.conf` on an empty disk. -/
theorem c9_missing_conf_witness :
    ((fun _ : String => false) (confFilePath { version := "25.0", conf := some "missing.conf" }) =
      false) ∧
    (nodeStep (some "x86_64") (fun _ : String => false) 0 0
        { version := "25.0", conf := some "missing.conf" } =
      StepResult.exited 1
        ("Error: Configuration file " ++
          confFilePath { version := "25.0", conf := some "missing.conf" } ++
          " does not exist.") ∧
     (1 : Nat) ≠ 0 ∧
     ∃ s₁ s₂, "Error: Configuration file " ++
        confFilePath { version := "25.0", conf := some "missing.conf" } ++
        " does not exist." =
        s₁ ++ confFilePath { version := "25.0", conf := some "missing.conf" } ++ s₂) :=
  ⟨rfl,
   c9_missing_conf_exits_nonzero (some "x86_64") (fun _ : String => false) 0 0
     { version := "25.0", conf := some "missing.conf" } rfl⟩

/-- C10: whenever the per-node loop assembles a service pair — for any
architecture, address, position, version, overrides and `conf` attribute —
the exporter's environment is the fixed block: RPC host equal to the paired
node service's name, RPC port 18443, RPC user `btc`, RPC password `passwd`. -/
theorem c10_exporter_environment_fixed (arch : Option String)
    (onDisk : String → Bool) (ip i : Nat) (node : NodeData)
    (ns : NodeService) (es : ExporterService)
    (h : nodeStep arch onDisk ip i node = StepResult.ok ns es) :
    es.environment.BITCOIN_RPC_HOST = ns.name ∧
    es.environment.BITCOIN_RPC_PORT = 18443 ∧
    es.environment.BITCOIN_RPC_USER = "btc" ∧
    es.environment.BITCOIN_RPC_PASSWORD = "passwd" := by
  by_cases hod : onDisk (confFilePath node) = true
  · simp only [nodeStep, hod, Bool.not_true] at h
    rw [if_neg (by decide : ¬ (false = true))] at h
    cases hrb : resolveBuild arch node.version with
    | none => rw [hrb] at h; simp at h
    | some b =>
      rw [hrb] at h
      dsimp only at h
      rw [StepResult.ok.injEq] at h
      obtain ⟨h1, h2⟩ := h
      subst h1
      subst h2
      exact ⟨rfl, rfl, rfl, rfl⟩
  · simp only [Bool.not_eq_true] at hod
    simp [nodeStep, hod] at h

/-- C10 witness: position 0, a release version, existing config file. -/
theorem c10_exporter_environment_witness :
    (nodeStep (some "x86_64") (fun _ : String => true) 5 0 { version := "25.0" } =
      StepResult.ok
        (NodeService.mk "bitcoin-node-0" "warnet_0"
          (BuildInstruction.fromRelease (some "x86_64") "25.0"
            "https://bitcoincore.org/bin/bitcoin-core-25.0/bitcoin-25.0-x86_64-linux-gnu.tar.gz")
          ["./config/bitcoin.conf:/root/.bitcoin/bitcoin.conf"] 5)
        (exporterServiceFor 0)) ∧
    ((exporterServiceFor 0).environment.BITCOIN_RPC_HOST =
        (NodeService.mk "bitcoin-node-0" "warnet_0"
          (BuildInstruction.fromRelease (some "x86_64") "25.0"
            "https://bitcoincore.org/bin/bitcoin-core-25.0/bitcoin-25.0-x86_64-linux-gnu.tar.gz")
          ["./config/bitcoin.conf:/root/.bitcoin/bitcoin.conf"] 5).name ∧
      (exporterServiceFor 0).environment.BITCOIN_RPC_PORT = 18443 ∧
      (exporterServiceFor 0).environment.BITCOIN_RPC_USER = "btc" ∧
      (exporterServiceFor 0).environment.BITCOIN_RPC_PASSWORD = "passwd") :=
  ⟨by decide,
   c10_exporter_environment_fixed (some "x86_64") (fun _ : String => true) 5 0
     { version := "25.0" } _ _ (by decide)⟩

end Warnet
